import Mathlib

/-!
Shallow embedding of the extraction cascade and session lifecycle of
`src/app.py` (legal-ai-backend).

Modelling conventions:
* Python strings are Lean `String`s; Python `str.replace` / `str.strip` are
  modelled by the executable functions `pyReplace` / `pyStrip` below, which
  operate on the underlying character list (Python trims its whitespace set;
  we use `Char.isWhitespace`, which covers the characters occurring here).
* A Python exception raised by an external call is an explicit outcome value:
  per-page extraction yields `Option String` (`none` = the page raised), the
  remote OCR service is an oracle record `CloudEnv`, and the text-generation
  collaborator is an `Except Unit String` argument.
* A page for which pdfplumber/pypdf returned Python `None` is modelled as
  `some ""` — both are falsy in `if text:` and have the same effect.
* An exception thrown by `pdfplumber.open` / `PdfReader` / the page iteration
  aborts the per-page loop; the layer is therefore modelled by the list of
  page outcomes that were actually processed (a crash before any page = `[]`,
  a crash midway = the prefix processed so far); the partially accumulated
  text is still tested against the sufficiency threshold, as in the source.
* The endpoint handlers are pure functions of the global `SESSIONS` store,
  the request data and the collaborator oracles; an uncaught Python exception
  escaping a handler is the outcome `ApiResult.raised`, a raised
  `HTTPException status detail` is `ApiResult.httpError status detail`.
-/

/-- Python `s.strip()`: drop leading and trailing whitespace characters. -/
def pyStrip (s : String) : String :=
  ⟨((s.data.dropWhile Char.isWhitespace).reverse.dropWhile Char.isWhitespace).reverse⟩

/-- `startsWithList pat s` is true when `pat` is an initial segment of `s`. -/
def startsWithList : List Char → List Char → Bool
  | [], _ => true
  | _ :: _, [] => false
  | p :: ps, c :: cs => p == c && startsWithList ps cs

/-- Fuel-driven worker for `pyReplace`; the fuel is an upper bound on the
number of characters still to be scanned, so it never runs out when started
with `s.length`. Structural recursion on the fuel keeps it kernel-reducible. -/
def pyReplaceAux (pat rep : List Char) : Nat → List Char → List Char
  | _, [] => []
  | 0, s => s
  | fuel + 1, c :: rest =>
    if pat ≠ [] ∧ startsWithList pat (c :: rest) then
      rep ++ pyReplaceAux pat rep fuel ((c :: rest).drop pat.length)
    else
      c :: pyReplaceAux pat rep fuel rest

/-- Python `s.replace(pat, rep)`: replace every non-overlapping occurrence of
`pat` in `s` by `rep`, scanning left to right. -/
def pyReplace (s pat rep : String) : String :=
  ⟨pyReplaceAux pat.data rep.data s.data.length s.data⟩

/-- `clean_text` from `src/app.py`: removes `**`, then `*`, then strips
surrounding whitespace. -/
def clean_text (text : String) : String :=
  pyStrip (pyReplace (pyReplace text "**" "") "*" "")

instance {ε α : Type} [DecidableEq ε] [DecidableEq α] : DecidableEq (Except ε α) :=
  fun x y =>
    match x, y with
    | .ok a, .ok b =>
      if h : a = b then isTrue (by rw [h])
      else isFalse (by intro he; cases he; exact h rfl)
    | .ok _, .error _ => isFalse (by intro h; cases h)
    | .error _, .ok _ => isFalse (by intro h; cases h)
    | .error e, .error f =>
      if h : e = f then isTrue (by rw [h])
      else isFalse (by intro he; cases he; exact h rfl)

/-- Oracle describing one run of the remote transcription service, as
observed by `ocr_via_gemini`:
* `upload`: `genai.upload_file` — raises, or returns a file whose initial
  state is `PROCESSING` (`true`) or not (`false`);
* `refetch`: the successive outcomes of `genai.get_file` issued while the
  state remains `PROCESSING` — each raises or reports the new state;
* `generate`: `model.generate_content` followed by `response.text` — raises,
  or produces the transcription. -/
structure CloudEnv where
  upload : Except Unit Bool
  refetch : List (Except Unit Bool)
  generate : Except Unit String
deriving DecidableEq

/-- The `while uploaded_file.state.name == "PROCESSING"` loop: keep
re-fetching while the state is `PROCESSING`. A trace exhausted while still
processing would make the source loop forever; the total model folds that
into a failed attempt. -/
def pollFile : Bool → List (Except Unit Bool) → Except Unit Unit
  | false, _ => .ok ()
  | true, [] => .error ()
  | true, .error () :: _ => .error ()
  | true, .ok b :: rest => pollFile b rest

/-- The body of the `try` block of `ocr_via_gemini`: upload, poll until the
file leaves `PROCESSING`, then request the transcription. -/
def cloudAttempt (env : CloudEnv) : Except Unit String := do
  let processing ← env.upload
  let _ ← pollFile processing env.refetch
  env.generate

/-- `ocr_via_gemini` from `src/app.py`: one attempt, any exception at any
step is caught by the surrounding `try`/`except` and becomes `""`. -/
def ocr_via_gemini (env : CloudEnv) : String :=
  match cloudAttempt env with
  | .ok text => text
  | .error _ => ""

/-- A document, as seen by the extraction cascade: the per-page outcomes the
two local layers produce for it (`none` = that page raised and was skipped),
and the cloud oracle used if layer 3 is reached. -/
structure Doc where
  layer1 : List (Option String)
  layer2 : List (Option String)
  cloud : CloudEnv
deriving DecidableEq

/-- Body of the per-page loop of `extract_text_from_pdf`:
`if text: full_text += text + "\n"`; a raised page contributes nothing. -/
def layerStep (full_text : String) (page : Option String) : String :=
  match page with
  | some text => if text ≠ "" then full_text ++ text ++ "\n" else full_text
  | none => full_text

/-- The per-layer accumulation of `extract_text_from_pdf`: `full_text = ""`,
then the loop body over the processed pages. -/
def layerText (pages : List (Option String)) : String :=
  pages.foldl layerStep ""

/-- Result of one run of `extract_text_from_pdf`, instrumented with how many
times each later tier was executed, so that "the cloud escalator is invoked
exactly once / never" is observable. The control flow mirrors the source:
layer 1, sufficiency check, layer 2, sufficiency check, layer 3. -/
structure ExtractTrace where
  result : String
  secondaryRuns : Nat
  cloudRuns : Nat
deriving DecidableEq

/-- `extract_text_from_pdf` from `src/app.py`, with tier-invocation counts. -/
def extractRun (doc : Doc) : ExtractTrace :=
  let full_text := layerText doc.layer1
  if 50 < (pyStrip full_text).length then
    ⟨full_text, 0, 0⟩
  else
    let full_text2 := layerText doc.layer2
    if 50 < (pyStrip full_text2).length then
      ⟨full_text2, 1, 0⟩
    else
      ⟨ocr_via_gemini doc.cloud, 1, 1⟩

/-- The string returned by `extract_text_from_pdf`. -/
def extract_text_from_pdf (doc : Doc) : String :=
  (extractRun doc).result

/-- A chat message as stored in `chat_history`: the code uses the role
strings `"user"` and `"ai"` (the latter is the assistant role). -/
structure ChatMessage where
  role : String
  content : String
deriving DecidableEq

/-- One session record of the `SESSIONS` dictionary. -/
structure Session where
  contract_text : String
  chat_history : List ChatMessage
  filename : String
deriving DecidableEq

/-- The global `SESSIONS` dictionary, as a map from identifier to session. -/
def Store : Type := String → Option Session

/-- Outcome of one endpoint handler: a normal JSON response, a raised
`HTTPException`, or an uncaught exception escaping the handler. -/
inductive ApiResult (α : Type) where
  | ok (a : α)
  | httpError (status : Nat) (detail : String)
  | raised
deriving DecidableEq

/-- `SESSIONS[session_id] = sess` — update of the global dictionary. -/
def Store.insert (store : Store) (session_id : String) (sess : Session) : Store :=
  fun id => if id = session_id then some sess else store id

/-- `upload_contract` from `src/app.py`. The fresh `session_id` produced by
`uuid.uuid4()` and the saved file are passed in; the handler extracts the
text, rejects with a 400 when `not contract_text or len(contract_text) < 10`,
and otherwise stores a fresh session and answers with the identifier. -/
def upload_contract (store : Store) (session_id : String) (doc : Doc)
    (filename : String) : ApiResult String × Store :=
  let contract_text := extract_text_from_pdf doc
  if contract_text = "" ∨ contract_text.length < 10 then
    (.httpError 400 "Could not extract text. PDF is blank/corrupted and OCR failed.",
     store)
  else
    (.ok session_id, store.insert session_id ⟨contract_text, [], filename⟩)

/-- `analyze_risks` from `src/app.py`. `gen` is the outcome of the
`model.generate_content(prompt)` call (with `response.text`) for the prompt
built from the first 40000 characters of the contract; on success the raw
text goes through `strip`, the removal of the code-fence markers, and
`clean_text`; a generation fault is caught and answered with the literal
empty-risk-list JSON string. -/
def analyze_risks (store : Store) (session_id : String)
    (gen : Except Unit String) : ApiResult String × Store :=
  match store session_id with
  | none => (.httpError 404 "Session not found", store)
  | some _ =>
    match gen with
    | .ok raw =>
      let text_out := pyReplace (pyReplace (pyStrip raw) "```json" "") "```" ""
      (.ok (clean_text text_out), store)
    | .error _ => (.ok "\x7b\"risks\": []\x7d", store)

/-- `chat` from `src/app.py`. `gen` is the outcome of the (un-guarded)
`model.generate_content(full_prompt)` call; a fault there escapes the
handler before any history mutation. On success the cleaned response is
returned after the user turn and the assistant (`"ai"`) turn are appended. -/
def chat (store : Store) (session_id : String) (query : String)
    (gen : Except Unit String) : ApiResult String × Store :=
  match store session_id with
  | none => (.httpError 404 "Session not found", store)
  | some session =>
    match gen with
    | .error _ => (.raised, store)
    | .ok raw =>
      let clean_response := clean_text raw
      let session2 : Session :=
        { session with
          chat_history := session.chat_history ++
            [⟨"user", query⟩, ⟨"ai", clean_response⟩] }
      (.ok clean_response, store.insert session_id session2)

/-- `rewrite_clause` from `src/app.py`: stateless; a generation fault is
caught and re-raised as `HTTPException(500, "Rewrite failed")`. -/
def rewrite_clause (gen : Except Unit String) : ApiResult String :=
  match gen with
  | .ok raw => .ok (clean_text raw)
  | .error _ => .httpError 500 "Rewrite failed"

/-- The shape the spec ascribes to a local tier output: the text of each
page that produced a non-empty string, each followed by a newline; raised
(`none`) and empty pages contribute nothing. Stated independently of the
accumulating loop so that `layerText = pagesJoined` is a real theorem. -/
def pagesJoined : List (Option String) → String
  | [] => ""
  | none :: rest => pagesJoined rest
  | some text :: rest => (if text ≠ "" then text ++ "\n" else "") ++ pagesJoined rest

/-- The two messages one successful chat turn appends: the user query, then
the cleaned assistant answer under the `"ai"` role. -/
def turnMessages (call : String × String) : List ChatMessage :=
  [⟨"user", call.1⟩, ⟨"ai", clean_text call.2⟩]

/-- The history produced by a sequence of chat turns, in call order. -/
def turnsFlat : List (String × String) → List ChatMessage
  | [] => []
  | call :: rest => turnMessages call ++ turnsFlat rest

/-- Run one successful `chat` call per element of `calls` (query paired
with the raw generation output) against the store, threading the store. -/
def chatCalls (store : Store) (session_id : String)
    (calls : List (String × String)) : Store :=
  calls.foldl (fun st call => (chat st session_id call.1 (.ok call.2)).2) store

-- Concrete inputs for witnesses and counterexamples.

/-- A store holding no session at all. -/
def store0 : Store := fun _ => none

/-- A store holding exactly one fresh session under `"sid"`. -/
def sess1 : Session := ⟨"contract body", [], "contract.pdf"⟩

def store1 : Store := fun id => if id = "sid" then some sess1 else none

/-- A page text of 60 non-whitespace characters (passes the 50-char gate). -/
def longPage : String := String.mk (List.replicate 60 'x')

/-- Document whose first local layer already yields sufficient text. -/
def docPrimary : Doc :=
  ⟨[some longPage, none, some ""], [some "unused"], ⟨.ok false, [], .ok "cloud"⟩⟩

/-- Document whose local layers both fail and whose cloud call succeeds. -/
def docCloudOk : Doc := ⟨[none], [], ⟨.ok true, [.ok false], .ok "cloud text"⟩⟩

/-- Document whose local layers both fail and whose cloud call raises while
polling. -/
def docAllFail : Doc := ⟨[some ""], [none], ⟨.ok true, [.error ()], .ok "t"⟩⟩

/-- Document whose cloud transcription is one visible character padded with
nine newlines: ten characters raw, one character after trimming. -/
def docPad : Doc := ⟨[], [], ⟨.ok false, [], .ok "a\n\n\n\n\n\n\n\n\n"⟩⟩

-- Helper lemmas (shared across the claim theorems below).

theorem layerText_foldl (pages : List (Option String)) :
    ∀ acc : String, pages.foldl layerStep acc = acc ++ pagesJoined pages := by
  induction pages with
  | nil => intro acc; simp [pagesJoined]
  | cons p rest ih =>
    intro acc
    rw [List.foldl_cons, ih]
    cases p with
    | none => simp [layerStep, pagesJoined]
    | some text =>
      by_cases h : text = ""
      · subst h; simp [layerStep, pagesJoined]
      · simp [layerStep, pagesJoined, h, String.append_assoc]

theorem layerText_eq_pagesJoined (pages : List (Option String)) :
    layerText pages = pagesJoined pages := by
  simpa [layerText] using layerText_foldl pages ""

theorem extractRun_primary (doc : Doc)
    (h : 50 < (pyStrip (layerText doc.layer1)).length) :
    extractRun doc = ⟨layerText doc.layer1, 0, 0⟩ := by
  simp [extractRun, h]

theorem extractRun_secondary (doc : Doc)
    (h1 : (pyStrip (layerText doc.layer1)).length ≤ 50)
    (h2 : 50 < (pyStrip (layerText doc.layer2)).length) :
    extractRun doc = ⟨layerText doc.layer2, 1, 0⟩ := by
  rw [extractRun]
  rw [if_neg (by omega), if_pos h2]

theorem extractRun_cloud (doc : Doc)
    (h1 : (pyStrip (layerText doc.layer1)).length ≤ 50)
    (h2 : (pyStrip (layerText doc.layer2)).length ≤ 50) :
    extractRun doc = ⟨ocr_via_gemini doc.cloud, 1, 1⟩ := by
  rw [extractRun]
  rw [if_neg (by omega), if_neg (by omega)]

theorem store_insert_self (store : Store) (session_id : String) (sess : Session) :
    (store.insert session_id sess) session_id = some sess := by
  simp [Store.insert]

-- Claim theorems.

/-- C1: for every document whose primary-tier (layer 1, pdfplumber)
concatenated text has trimmed length exceeding 50 characters,
`extract_text_from_pdf` returns that layer-1 text and neither the secondary
tier nor the cloud escalator (`ocr_via_gemini`) is executed. -/
theorem extract_primary_cost_gate (doc : Doc)
    (h : 50 < (pyStrip (layerText doc.layer1)).length) :
    extract_text_from_pdf doc = layerText doc.layer1 ∧
    (extractRun doc).secondaryRuns = 0 ∧ (extractRun doc).cloudRuns = 0 := by
  rw [extract_text_from_pdf, extractRun_primary doc h]
  exact ⟨rfl, rfl, rfl⟩

/-- Witness for C1 at the concrete document `docPrimary`. -/
theorem extract_primary_cost_gate_witness :
    50 < (pyStrip (layerText docPrimary.layer1)).length ∧
    (extract_text_from_pdf docPrimary = layerText docPrimary.layer1 ∧
     (extractRun docPrimary).secondaryRuns = 0 ∧
     (extractRun docPrimary).cloudRuns = 0) :=
  ⟨by decide, extract_primary_cost_gate docPrimary (by decide)⟩

/-- C2: for every document where both local tiers yield a concatenation of
trimmed length at most 50, the cloud escalator runs exactly once and whatever
it produces (possibly `""`) is the cascade result; nothing runs after it. -/
theorem extract_escalation_once (doc : Doc)
    (h1 : (pyStrip (layerText doc.layer1)).length ≤ 50)
    (h2 : (pyStrip (layerText doc.layer2)).length ≤ 50) :
    (extractRun doc).cloudRuns = 1 ∧
    extract_text_from_pdf doc = ocr_via_gemini doc.cloud := by
  rw [extract_text_from_pdf, extractRun_cloud doc h1 h2]
  exact ⟨rfl, rfl⟩

/-- Witness for C2 at the concrete document `docCloudOk`. -/
theorem extract_escalation_once_witness :
    (pyStrip (layerText docCloudOk.layer1)).length ≤ 50 ∧
    (pyStrip (layerText docCloudOk.layer2)).length ≤ 50 ∧
    ((extractRun docCloudOk).cloudRuns = 1 ∧
     extract_text_from_pdf docCloudOk = ocr_via_gemini docCloudOk.cloud) :=
  ⟨by decide, by decide, extract_escalation_once docCloudOk (by decide) (by decide)⟩

/-- C3: `extract_text_from_pdf` is a total function of the document (every
per-page and per-tier exception is an absorbed outcome value, never a raise),
and when every tier fails — both local layers insufficient and the cloud
attempt raising — it returns the empty string. -/
theorem extract_total_exhaustion_empty (doc : Doc)
    (h1 : (pyStrip (layerText doc.layer1)).length ≤ 50)
    (h2 : (pyStrip (layerText doc.layer2)).length ≤ 50)
    (hc : cloudAttempt doc.cloud = .error ()) :
    extract_text_from_pdf doc = "" := by
  rw [extract_text_from_pdf, extractRun_cloud doc h1 h2]
  simp [ocr_via_gemini, hc]

/-- Witness for C3 at the concrete document `docAllFail`. -/
theorem extract_total_exhaustion_empty_witness :
    (pyStrip (layerText docAllFail.layer1)).length ≤ 50 ∧
    (pyStrip (layerText docAllFail.layer2)).length ≤ 50 ∧
    cloudAttempt docAllFail.cloud = .error () ∧
    extract_text_from_pdf docAllFail = "" :=
  ⟨by decide, by decide, by decide,
   extract_total_exhaustion_empty docAllFail (by decide) (by decide) (by decide)⟩

/-- C4: every failing run of the cloud escalator — an exception at upload,
polling, or generation, making the attempt an error — produces `""`; the
function never propagates the exception (it is total into `String`). -/
theorem ocr_absorbs_exceptions (env : CloudEnv)
    (h : cloudAttempt env = .error ()) :
    ocr_via_gemini env = "" := by
  simp [ocr_via_gemini, h]

/-- Witness for C4: an escalation whose upload raises. -/
theorem ocr_absorbs_exceptions_witness :
    cloudAttempt ⟨.error (), [], .ok "t"⟩ = .error () ∧
    ocr_via_gemini ⟨.error (), [], .ok "t"⟩ = "" :=
  ⟨by decide, ocr_absorbs_exceptions ⟨.error (), [], .ok "t"⟩ (by decide)⟩

/-- C5 counterexample: the upload gate tests the RAW length of the extracted
text, not the trimmed length. For `docPad` (cloud transcription `"a"`
followed by nine newlines, ten raw characters, one after trimming) a session
IS created although the trimmed length is below 10, refuting the claim that
session creation requires trimmed length at least 10. -/
theorem upload_trim_length_cex :
    (upload_contract store0 "sid" docPad "scan.pdf").2 "sid" ≠ none ∧
    (pyStrip (extract_text_from_pdf docPad)).length < 10 := by
  constructor
  · decide
  · decide

/-- C5 (amended): a session is created and stored iff the extracted text is
non-empty and its raw (untrimmed) length is at least 10; otherwise the upload
is rejected with the fixed extraction-failure message and the store is
unchanged. -/
theorem upload_session_raw_length (store : Store) (session_id : String)
    (doc : Doc) (filename : String) :
    (extract_text_from_pdf doc ≠ "" ∧ 10 ≤ (extract_text_from_pdf doc).length →
      upload_contract store session_id doc filename =
        (.ok session_id,
         store.insert session_id ⟨extract_text_from_pdf doc, [], filename⟩)) ∧
    (extract_text_from_pdf doc = "" ∨ (extract_text_from_pdf doc).length < 10 →
      upload_contract store session_id doc filename =
        (.httpError 400
          "Could not extract text. PDF is blank/corrupted and OCR failed.",
         store)) := by
  constructor
  · intro h
    have hcond :
        ¬(extract_text_from_pdf doc = "" ∨ (extract_text_from_pdf doc).length < 10) := by
      push_neg
      exact h
    simp only [upload_contract]
    rw [if_neg hcond]
  · intro h
    simp only [upload_contract]
    rw [if_pos h]

/-- Witness for C5 (amended): `docPrimary` is accepted and stored raw,
`docAllFail` is rejected and leaves the store unchanged. -/
theorem upload_session_raw_length_witness :
    (extract_text_from_pdf docPrimary ≠ "" ∧
     10 ≤ (extract_text_from_pdf docPrimary).length ∧
     upload_contract store0 "sid" docPrimary "a.pdf" =
       (.ok "sid",
        store0.insert "sid" ⟨extract_text_from_pdf docPrimary, [], "a.pdf"⟩)) ∧
    (extract_text_from_pdf docAllFail = "" ∧
     upload_contract store0 "sid2" docAllFail "b.pdf" =
       (.httpError 400
         "Could not extract text. PDF is blank/corrupted and OCR failed.",
        store0)) :=
  ⟨⟨by decide, by decide,
    (upload_session_raw_length store0 "sid" docPrimary "a.pdf").1
      ⟨by decide, by decide⟩⟩,
   ⟨by decide,
    (upload_session_raw_length store0 "sid2" docAllFail "b.pdf").2
      (Or.inl (by decide))⟩⟩

/-- C6 counterexample: `analyze_risks` does not pass the generation output
through with only emphasis markers and whitespace stripped — it also deletes
the code-fence markers. On the raw output `"```json X```"` (which contains no
asterisk and no surrounding whitespace) the endpoint answers `"X"`, while
emphasis-and-whitespace-only cleaning (`clean_text`) leaves the string
unchanged. -/
theorem analyze_fences_cex :
    (analyze_risks store1 "sid" (.ok "```json X```")).1 = ApiResult.ok "X" ∧
    clean_text "```json X```" ≠ "X" := by
  constructor
  · decide
  · decide

/-- C6 (amended): for every stored session, `analyze_risks` on a successful
generation returns the raw output after stripping surrounding whitespace,
deleting every occurrence of the code-fence markers `"```json"` and then
`"```"`, and finally stripping markdown emphasis markers and surrounding
whitespace (`clean_text`); the store is untouched. -/
theorem analyze_output_transformation (store : Store) (session_id : String)
    (s : Session) (raw : String) (h : store session_id = some s) :
    analyze_risks store session_id (.ok raw) =
      (.ok (clean_text (pyReplace (pyReplace (pyStrip raw) "```json" "") "```" "")),
       store) := by
  simp [analyze_risks, h]

/-- Witness for C6 (amended) on a concrete session and raw output. -/
theorem analyze_output_transformation_witness :
    store1 "sid" = some sess1 ∧
    analyze_risks store1 "sid" (.ok " *risky* ") =
      (.ok (clean_text
        (pyReplace (pyReplace (pyStrip " *risky* ") "```json" "") "```" "")),
       store1) :=
  ⟨rfl, analyze_output_transformation store1 "sid" sess1 " *risky* " rfl⟩

theorem turnsFlat_length (calls : List (String × String)) :
    (turnsFlat calls).length = 2 * calls.length := by
  induction calls with
  | nil => rfl
  | cons call rest ih =>
    simp only [turnsFlat, turnMessages, List.length_append, List.length_cons,
      List.length_nil, ih]
    omega

theorem turnsFlat_roles (calls : List (String × String)) :
    ∀ i : Nat, ∀ hi : i < (turnsFlat calls).length,
      ((turnsFlat calls).get ⟨i, hi⟩).role = if i % 2 = 0 then "user" else "ai" := by
  induction calls with
  | nil => intro i hi; simp [turnsFlat] at hi
  | cons call rest ih =>
    intro i hi
    rcases i with _ | _ | j
    · rfl
    · rfl
    · have hj : j < (turnsFlat rest).length := by
        have h2 := hi
        simp only [turnsFlat, turnMessages, List.length_append, List.length_cons,
          List.length_nil] at h2
        omega
      have hmod : j.succ.succ % 2 = j % 2 := by omega
      show ((turnsFlat rest).get ⟨j, hj⟩).role = if j.succ.succ % 2 = 0 then "user" else "ai"
      rw [hmod]
      exact ih j hj

theorem chatCalls_get (calls : List (String × String)) :
    ∀ (store : Store) (session_id : String) (s : Session),
      store session_id = some s →
      (chatCalls store session_id calls) session_id =
        some { s with chat_history := s.chat_history ++ turnsFlat calls } := by
  induction calls with
  | nil =>
    intro store session_id s h
    simp [chatCalls, turnsFlat, h]
  | cons call rest ih =>
    intro store session_id s h
    have hstep : (chat store session_id call.1 (Except.ok call.2)).2 =
        store.insert session_id
          { s with chat_history := s.chat_history ++ turnMessages call } := by
      simp [chat, h, turnMessages]
    have hrest := ih ((chat store session_id call.1 (Except.ok call.2)).2) session_id
      { s with chat_history := s.chat_history ++ turnMessages call }
      (by rw [hstep]; exact store_insert_self store session_id _)
    have hcons : chatCalls store session_id (call :: rest) =
        chatCalls ((chat store session_id call.1 (Except.ok call.2)).2) session_id rest :=
      rfl
    rw [hcons, hrest]
    simp [turnsFlat, List.append_assoc]

/-- C7: after K successful chat calls on one session that starts with an
empty history, the history is exactly the appended turns in call order
(user message before assistant message within each turn), has length 2K, and
carries the user role at even indices and the assistant role (the string
`"ai"`) at odd indices. -/
theorem chat_history_ordering (store : Store) (session_id : String) (s : Session)
    (calls : List (String × String)) (hs : store session_id = some s)
    (hfresh : s.chat_history = []) :
    ∃ s2 : Session,
      (chatCalls store session_id calls) session_id = some s2 ∧
      s2.chat_history = turnsFlat calls ∧
      s2.chat_history.length = 2 * calls.length ∧
      ∀ i : Nat, ∀ hi : i < s2.chat_history.length,
        (s2.chat_history.get ⟨i, hi⟩).role = if i % 2 = 0 then "user" else "ai" := by
  have hget := chatCalls_get calls store session_id s hs
  rw [hfresh] at hget
  rw [List.nil_append] at hget
  exact ⟨{ s with chat_history := turnsFlat calls }, hget, rfl,
    turnsFlat_length calls, turnsFlat_roles calls⟩

/-- Witness for C7: two chat turns on a concrete fresh session. -/
theorem chat_history_ordering_witness :
    store1 "sid" = some sess1 ∧ sess1.chat_history = [] ∧
    ∃ s2 : Session,
      (chatCalls store1 "sid" [("q1", "a1"), ("q2", "a2")]) "sid" = some s2 ∧
      s2.chat_history = turnsFlat [("q1", "a1"), ("q2", "a2")] ∧
      s2.chat_history.length = 2 * 2 ∧
      ∀ i : Nat, ∀ hi : i < s2.chat_history.length,
        (s2.chat_history.get ⟨i, hi⟩).role = if i % 2 = 0 then "user" else "ai" :=
  ⟨rfl, rfl,
   chat_history_ordering store1 "sid" sess1 [("q1", "a1"), ("q2", "a2")] rfl rfl⟩

/-- C8: on a session identifier absent from the store, both `analyze_risks`
and `chat` answer exactly the 404 not-found error and leave the store — in
particular every chat history — unchanged. -/
theorem unknown_session_not_found (store : Store) (session_id query : String)
    (gen : Except Unit String) (h : store session_id = none) :
    analyze_risks store session_id gen = (.httpError 404 "Session not found", store) ∧
    chat store session_id query gen = (.httpError 404 "Session not found", store) := by
  constructor
  · simp [analyze_risks, h]
  · simp [chat, h]

/-- Witness for C8 on the empty store. -/
theorem unknown_session_not_found_witness :
    store0 "ghost" = none ∧
    (analyze_risks store0 "ghost" (.ok "t") =
      (.httpError 404 "Session not found", store0) ∧
     chat store0 "ghost" "q" (.ok "t") =
      (.httpError 404 "Session not found", store0)) :=
  ⟨rfl, unknown_session_not_found store0 "ghost" "q" (.ok "t") rfl⟩

/-- C9: when the text-generation collaborator faults, `analyze_risks`
recovers locally into the empty-risk-list response, `chat` lets the
exception escape the handler unrecovered (and mutates nothing), and
`rewrite_clause` raises the explicit 500 failure. -/
theorem generation_fault_handling (store : Store) (session_id query : String)
    (s : Session) (h : store session_id = some s) :
    analyze_risks store session_id (.error ()) = (.ok "\x7b\"risks\": []\x7d", store) ∧
    chat store session_id query (.error ()) = (.raised, store) ∧
    rewrite_clause (.error ()) = .httpError 500 "Rewrite failed" := by
  refine ⟨?_, ?_, rfl⟩
  · simp [analyze_risks, h]
  · simp [chat, h]

/-- Witness for C9 on a concrete stored session. -/
theorem generation_fault_handling_witness :
    store1 "sid" = some sess1 ∧
    (analyze_risks store1 "sid" (.error ()) =
      (.ok "\x7b\"risks\": []\x7d", store1) ∧
     chat store1 "sid" "q" (.error ()) = (.raised, store1) ∧
     rewrite_clause (.error ()) = .httpError 500 "Rewrite failed") :=
  ⟨rfl, generation_fault_handling store1 "sid" "q" sess1 rfl⟩

/-- C10: when a local tier passes the sufficiency check, the cascade returns
the untrimmed concatenation in which the text of each page that produced a
non-empty string is followed (not separated) by a newline, and raised or
empty pages contribute nothing; trimming touches only the copy tested
against the threshold. -/
theorem local_tier_untrimmed_join (doc : Doc) :
    (50 < (pyStrip (layerText doc.layer1)).length →
      extract_text_from_pdf doc = pagesJoined doc.layer1) ∧
    ((pyStrip (layerText doc.layer1)).length ≤ 50 →
      50 < (pyStrip (layerText doc.layer2)).length →
      extract_text_from_pdf doc = pagesJoined doc.layer2) := by
  constructor
  · intro h
    rw [extract_text_from_pdf, extractRun_primary doc h]
    exact layerText_eq_pagesJoined doc.layer1
  · intro h1 h2
    rw [extract_text_from_pdf, extractRun_secondary doc h1 h2]
    exact layerText_eq_pagesJoined doc.layer2

/-- Witness for C10: `docPrimary` keeps its trailing newline — the returned
text is the raw newline-terminated join and differs from its trimmed copy. -/
theorem local_tier_untrimmed_join_witness :
    50 < (pyStrip (layerText docPrimary.layer1)).length ∧
    extract_text_from_pdf docPrimary = pagesJoined docPrimary.layer1 ∧
    extract_text_from_pdf docPrimary ≠ pyStrip (extract_text_from_pdf docPrimary) :=
  ⟨by decide, (local_tier_untrimmed_join docPrimary).1 (by decide), by decide⟩
